import Mathlib

/-!
Verification of the rate-limiting request scheduler ("Limiter") of the
pubg_api client library, as implemented in the source (Limiter class and
its PubgApi integration points: the constructor and setRateLimiting).

The embedding is a shallow one:
* a `Limiter` record mirrors the Limiter instance fields
  (`items`, `enabled`, `remaining`, `refillRate`);
* each method becomes a state-passing function; queued promise resolvers
  are modelled as caller identifiers (`Nat`), and "resolving" a caller is
  modelled by emitting its identifier in an output list;
* `release()` ends in `setTimeout(this.release(), this.refillRate)`, which
  evaluates `this.release()` eagerly (an unbounded self-call), so `release`
  is modelled with explicit fuel: a result of `none` means the call has not
  returned within the given recursion budget, for any budget.
-/

/-- Outcome of one `defer()` call: the returned promise is either already
resolved (admission granted immediately) or pending in the wait queue. -/
inductive DeferResult where
  | immediate : DeferResult
  | queued : DeferResult
deriving DecidableEq, Repr

/-- The Limiter instance state: `items` is the FIFO wait queue of pending
resolvers (modelled as caller ids), `enabled` the admission-control flag,
`remaining` the token count, `refillRate` the interval (ms) used by
`setTimeout`, a JS float modelled as a rational. -/
structure Limiter where
  items : List Nat
  enabled : Bool
  remaining : Int
  refillRate : ℚ
deriving DecidableEq, Repr

/-- `update(remaining)`: overwrites the token count. -/
def Limiter.update (l : Limiter) (remaining : Int) : Limiter :=
  { l with remaining := remaining }

/-- `defer()`: if `this.enabled && this.remaining < 1`, a new pending
promise is created and its resolver pushed onto `items` (JS `push` appends
at the tail); otherwise the state is untouched and a resolved promise is
returned. -/
def Limiter.defer (l : Limiter) (c : Nat) : Limiter × DeferResult :=
  if l.enabled = true ∧ l.remaining < 1 then
    ({ l with items := l.items ++ [c] }, DeferResult.queued)
  else
    (l, DeferResult.immediate)

/-- `finish()`: if `items` is non-empty, decrement `remaining`, `shift()`
the first resolver off the queue and resolve it (returned as `some c`);
otherwise do nothing. -/
def Limiter.finish (l : Limiter) : Limiter × Option Nat :=
  match l.items with
  | [] => (l, none)
  | c :: rest => ({ l with remaining := l.remaining - 1, items := rest }, some c)

theorem Limiter.finish_remaining_le (l : Limiter) :
    (Limiter.finish l).1.remaining ≤ l.remaining := by
  cases h : l.items with
  | nil => simp [Limiter.finish, h]
  | cons c rest => simp [Limiter.finish, h]

/-- The `for (let i = 0; i < this.remaining; i += 1) this.finish();` loop
inside `release()`: starting from loop counter `i`, repeatedly call
`finish` while `i < remaining` (note `finish` itself decrements
`remaining` whenever the queue is non-empty). Returns the final state and
the resolved callers in resolution order. -/
def Limiter.releaseLoop (l : Limiter) (i : Nat) : Limiter × List Nat :=
  if h : (i : Int) < l.remaining then
    let p := Limiter.finish l
    let q := Limiter.releaseLoop p.1 (i + 1)
    (q.1, p.2.toList ++ q.2)
  else
    (l, [])
termination_by (l.remaining - (i : Int)).toNat
decreasing_by
  have hle := Limiter.finish_remaining_le l
  omega

/-- The body of one `release()` activation, up to but excluding the final
`setTimeout(this.release(), this.refillRate)` line: return unchanged if
disabled, else run the finish loop and then add one token. -/
def Limiter.releaseBody (l : Limiter) : Limiter × List Nat :=
  if l.enabled = false then (l, [])
  else
    let p := Limiter.releaseLoop l 0
    ({ p.1 with remaining := p.1.remaining + 1 }, p.2)

/-- Full `release()`, fuel-indexed. The source ends with
`setTimeout(this.release(), this.refillRate)`: the argument
`this.release()` is evaluated immediately, so the call re-enters itself
before `setTimeout` ever runs. `none` means the call did not return within
`fuel` self-reentries. -/
def Limiter.releaseFuel (l : Limiter) : Nat → Option (Limiter × List Nat)
  | 0 => none
  | fuel + 1 =>
    if l.enabled = false then some (l, [])
    else
      let p := Limiter.releaseLoop l 0
      let l2 : Limiter := { p.1 with remaining := p.1.remaining + 1 }
      match Limiter.releaseFuel l2 fuel with
      | none => none
      | some q => some (q.1, p.2 ++ q.2)

/-- The Limiter constructor's field assignments (`items = []`,
`enabled = enabled`, `remaining = tokenRate`,
`refillRate = 6000 / this.remaining`), before the trailing
`this.release()` call. -/
def mkLimiterState (enabled : Bool) (tokenRate : Int) : Limiter :=
  { items := [], enabled := enabled, remaining := tokenRate,
    refillRate := 6000 / (tokenRate : ℚ) }

/-- The full Limiter constructor: assign the fields, then call
`this.release()` (fuel-indexed, since `release` self-reenters). -/
def mkLimiter (enabled : Bool) (tokenRate : Int) (fuel : Nat) :
    Option (Limiter × List Nat) :=
  Limiter.releaseFuel (mkLimiterState enabled tokenRate) fuel

/-- `PubgApi.setRateLimiting(enabled, tokenRate)`: set `limiter.enabled`,
set `limiter.refillRate = 6000 / tokenRate`, then call
`limiter.release()` (fuel-indexed). -/
def setRateLimiting (l : Limiter) (enabled : Bool) (tokenRate : Int)
    (fuel : Nat) : Option (Limiter × List Nat) :=
  Limiter.releaseFuel
    { l with enabled := enabled, refillRate := 6000 / (tokenRate : ℚ) } fuel

/-- A sequence of `defer()` calls by callers `cs`, threading the state and
recording each call's outcome. -/
def Limiter.deferSeq (l : Limiter) : List Nat → Limiter × List DeferResult
  | [] => (l, [])
  | c :: cs =>
    let p := Limiter.defer l c
    let q := Limiter.deferSeq p.1 cs
    (q.1, p.2 :: q.2)

/-- Options object passed to the `PubgApi` constructor. Only the two
fields consumed by the Limiter integration are modelled
(`deferRequests`, `tokenRate`); `asyncType`/`defaultShard` do not touch
the limiter. `none` models a JS `undefined` field. -/
structure PubgApiOptions where
  deferRequests : Option Bool
  tokenRate : Option Int
deriving DecidableEq, Repr

/-- JS `a || b` on a possibly-undefined boolean `a`: yields `a` when `a`
is truthy (`true`), else `b`. In particular an explicit `false` yields
`b`. -/
def jsOrBool : Option Bool → Bool → Bool
  | some b, d => if b then b else d
  | none, d => d

/-- JS `a || b` on a possibly-undefined number `a`: yields `a` unless `a`
is falsy (`undefined` or `0`). -/
def jsOrInt : Option Int → Int → Int
  | some n, d => if n = 0 then d else n
  | none, d => d

/-- The constructor's default-parameter object
`(deferRequests: true, tokenRate: 10)`, used only when the whole options
argument is omitted. -/
def defaultPubgApiOptions : PubgApiOptions :=
  { deferRequests := some true, tokenRate := some 10 }

/-- The limiter field state produced by the `PubgApi` constructor:
`new Limiter(options.deferRequests || true, options.tokenRate || 10)`
(field assignments only; the Limiter constructor additionally calls
`release()`, modelled by `mkLimiter`). -/
def pubgApiLimiter (options : Option PubgApiOptions) : Limiter :=
  let o := options.getD defaultPubgApiOptions
  mkLimiterState (jsOrBool o.deferRequests true) (jsOrInt o.tokenRate 10)

/-! ### Helper lemmas -/

theorem Limiter.finish_frame (l : Limiter) :
    (Limiter.finish l).1.enabled = l.enabled ∧
    (Limiter.finish l).1.refillRate = l.refillRate := by
  cases h : l.items with
  | nil => simp [Limiter.finish, h]
  | cons c rest => simp [Limiter.finish, h]

theorem Limiter.releaseLoop_frame (l : Limiter) (i : Nat) :
    (Limiter.releaseLoop l i).1.enabled = l.enabled ∧
    (Limiter.releaseLoop l i).1.refillRate = l.refillRate := by
  induction l, i using Limiter.releaseLoop.induct with
  | case1 l i h p ih =>
    rw [Limiter.releaseLoop]
    simp only [h, dif_pos]
    exact ⟨ih.1.trans (Limiter.finish_frame l).1,
      ih.2.trans (Limiter.finish_frame l).2⟩
  | case2 l i h =>
    rw [Limiter.releaseLoop]
    simp [h]

/-- `release()` never returns when the limiter is enabled, for any
recursion budget: the `setTimeout(this.release(), …)` line evaluates
`this.release()` eagerly and `enabled` never changes inside the call. -/
theorem Limiter.releaseFuel_none_of_enabled (fuel : Nat) :
    ∀ l : Limiter, l.enabled = true → Limiter.releaseFuel l fuel = none := by
  induction fuel with
  | zero => intro l _; rfl
  | succ n ih =>
    intro l he
    have h2 : ({ (Limiter.releaseLoop l 0).1 with
        remaining := (Limiter.releaseLoop l 0).1.remaining + 1 } :
        Limiter).enabled = true := by
      have hfr := (Limiter.releaseLoop_frame l 0).1
      simp [hfr, he]
    simp [Limiter.releaseFuel, he, ih _ h2]

/-- A `defer()` call in a state that is not exhausted (not both enabled
and out of tokens) resolves immediately and leaves the state unchanged;
hence so does any sequence of such calls. -/
theorem Limiter.deferSeq_of_not_exhausted :
    ∀ (cs : List Nat) (l : Limiter),
      ¬(l.enabled = true ∧ l.remaining < 1) →
      Limiter.deferSeq l cs = (l, List.replicate cs.length DeferResult.immediate) := by
  intro cs
  induction cs with
  | nil => intro l _; rfl
  | cons c rest ih =>
    intro l h
    simp [Limiter.deferSeq, Limiter.defer, h, ih l h, List.replicate]

/-! ### Claim theorems -/

/-- Claim C8 (confirmed): in every state with `enabled = false`, each
`defer()` call resolves immediately and leaves the limiter (in
particular the wait queue) untouched, for any sequence of admission
requests — a disabled limiter never populates its queue. -/
theorem claim_C8_disabled_all_immediate (l : Limiter) (cs : List Nat)
    (he : l.enabled = false) :
    Limiter.deferSeq l cs = (l, List.replicate cs.length DeferResult.immediate) := by
  apply Limiter.deferSeq_of_not_exhausted
  simp [he]

/-- Witness for claim C8 at the constructed disabled limiter and three
defer calls. -/
theorem claim_C8_disabled_all_immediate_witness :
    (mkLimiterState false 10).enabled = false ∧
    Limiter.deferSeq (mkLimiterState false 10) [1, 2, 3] =
      (mkLimiterState false 10, List.replicate 3 DeferResult.immediate) :=
  ⟨rfl, claim_C8_disabled_all_immediate (mkLimiterState false 10) [1, 2, 3] rfl⟩

/-- Claim C1 counterexample: with `enabled = true` and `remaining = R = 1`,
a sequence of `N = 2` `defer()` calls resolves BOTH immediately (the claim
predicts the second is queued), and the immediate admission does NOT
decrement `remaining` (the claim predicts `remaining -= 1`). -/
theorem claim_C1_counterexample :
    Limiter.deferSeq ⟨[], true, 1, 6000⟩ [0, 1] =
      ((⟨[], true, 1, 6000⟩ : Limiter),
        [DeferResult.immediate, DeferResult.immediate]) ∧
    (Limiter.deferSeq ⟨[], true, 1, 6000⟩ [0, 1]).2 ≠
      [DeferResult.immediate, DeferResult.queued] ∧
    (Limiter.defer ⟨[], true, 1, 6000⟩ 0).1.remaining ≠
      (⟨[], true, 1, 6000⟩ : Limiter).remaining - 1 := by
  refine ⟨rfl, by decide, by decide⟩

/-- Claim C1 as amended: a `defer()` call with `enabled = true` and
`remaining ≥ 1` is granted immediately and leaves the limiter state
(including `remaining`) unchanged; hence every call of a sequence of N
`defer()` calls starting from `remaining = R ≥ 1` (no intervening refill
or update) resolves immediately and none is queued. -/
theorem claim_C1_amended (l : Limiter) (cs : List Nat)
    (he : l.enabled = true) (hr : 1 ≤ l.remaining) :
    Limiter.deferSeq l cs = (l, List.replicate cs.length DeferResult.immediate) := by
  apply Limiter.deferSeq_of_not_exhausted
  rintro ⟨-, hlt⟩
  omega

/-- Witness for the amended claim C1 at `remaining = 2` and three defer
calls. -/
theorem claim_C1_amended_witness :
    (mkLimiterState true 2).enabled = true ∧
    1 ≤ (mkLimiterState true 2).remaining ∧
    Limiter.deferSeq (mkLimiterState true 2) [7, 8, 9] =
      (mkLimiterState true 2, List.replicate 3 DeferResult.immediate) :=
  ⟨rfl, by decide, claim_C1_amended (mkLimiterState true 2) [7, 8, 9] rfl (by decide)⟩

/-- Claim C9 (confirmed): `finish()` on an empty queue leaves the whole
limiter state unchanged and resolves nobody; on a non-empty queue it
removes exactly the head — which is the oldest entry, since `defer()`
appends new callers at the tail — resolves it, and decrements
`remaining` by 1. -/
theorem claim_C9_finish_fifo (l : Limiter) (c x : Nat) (cs : List Nat) :
    (l.items = [] → Limiter.finish l = (l, none)) ∧
    (l.items = c :: cs →
      Limiter.finish l =
        ({ l with items := cs, remaining := l.remaining - 1 }, some c)) ∧
    (l.enabled = true → l.remaining < 1 →
      (Limiter.defer l x).1.items = l.items ++ [x]) := by
  refine ⟨?_, ?_, ?_⟩
  · intro h; simp [Limiter.finish, h]
  · intro h; simp [Limiter.finish, h]
  · intro he hr; simp [Limiter.defer, he, hr]

/-- Witness for claim C9: a concrete pop from a two-element queue, a
concrete empty-queue no-op, and a concrete tail append by `defer()`. -/
theorem claim_C9_finish_fifo_witness :
    Limiter.finish ⟨[5, 6], true, 3, 600⟩ = (⟨[6], true, 2, 600⟩, some 5) ∧
    Limiter.finish ⟨[], true, 3, 600⟩ = (⟨[], true, 3, 600⟩, none) ∧
    (Limiter.defer ⟨[5, 6], true, 0, 600⟩ 7).1.items = [5, 6, 7] := by
  refine ⟨?_, ?_, ?_⟩
  · have h := (claim_C9_finish_fifo ⟨[5, 6], true, 3, 600⟩ 5 0 [6]).2.1 rfl
    simpa using h
  · exact (claim_C9_finish_fifo ⟨[], true, 3, 600⟩ 0 0 []).1 rfl
  · exact (claim_C9_finish_fifo ⟨[5, 6], true, 0, 600⟩ 0 7 []).2.2 rfl (by decide)

/-- Claim C10 (confirmed): `defer()` never changes `remaining`, `enabled`
or `refillRate`; its only state effect is on the queue — it appends
exactly one entry at the tail when `enabled` is true and `remaining < 1`,
and leaves the queue untouched otherwise. -/
theorem claim_C10_defer_frame (l : Limiter) (c : Nat) :
    (Limiter.defer l c).1.remaining = l.remaining ∧
    (Limiter.defer l c).1.enabled = l.enabled ∧
    (Limiter.defer l c).1.refillRate = l.refillRate ∧
    (l.enabled = true ∧ l.remaining < 1 →
      (Limiter.defer l c).1.items = l.items ++ [c]) ∧
    (¬(l.enabled = true ∧ l.remaining < 1) →
      (Limiter.defer l c).1.items = l.items) := by
  by_cases h : l.enabled = true ∧ l.remaining < 1 <;>
    simp [Limiter.defer, h]

/-- Witness for claim C10 in the queueing branch (`enabled`, no tokens). -/
theorem claim_C10_defer_frame_witness :
    ((⟨[1], true, 0, 600⟩ : Limiter).enabled = true ∧
      (⟨[1], true, 0, 600⟩ : Limiter).remaining < 1) ∧
    (Limiter.defer ⟨[1], true, 0, 600⟩ 9).1.items = [1, 9] ∧
    (Limiter.defer ⟨[1], true, 0, 600⟩ 9).1.remaining = 0 := by
  refine ⟨⟨rfl, by decide⟩, ?_, ?_⟩
  · have h := (claim_C10_defer_frame ⟨[1], true, 0, 600⟩ 9).2.2.2.1 ⟨rfl, by decide⟩
    simpa using h
  · exact (claim_C10_defer_frame ⟨[1], true, 0, 600⟩ 9).1

/-- Evaluation of one `release()` tick on the failing input of claim C2:
queue `[0, 1]` (Q = 2) and `remaining = 2` (R = 2). The `for` loop's
bound `i < this.remaining` shrinks as `finish()` decrements `remaining`,
so only caller 0 is granted: after granting it, `i = 1` is no longer
below the decremented `remaining = 1`. -/
theorem releaseBody_on_two_two :
    Limiter.releaseBody ⟨[0, 1], true, 2, 600⟩ =
      ((⟨[1], true, 2, 600⟩ : Limiter), [0]) := by
  have h1 : Limiter.releaseLoop ⟨[0, 1], true, 2, 600⟩ 0 =
      ((⟨[1], true, 1, 600⟩ : Limiter), [0]) := by
    rw [Limiter.releaseLoop]
    norm_num [Limiter.finish]
    rw [Limiter.releaseLoop]
    norm_num
  simp [Limiter.releaseBody, h1]

/-- Claim C2 evaluated at the failing input: with `enabled = true`,
`Q = 2` queued callers and `R = remaining = 2` tokens, one `release()`
tick grants exactly 1 admission, not `min(Q, R) = 2` as the claim (and
the code's own "finish as many deferred API requests as possible"
comment) states; caller 1 stays queued and the tick ends with
`remaining = 2`. -/
theorem claim_C2_release_grant_count :
    (Limiter.releaseBody ⟨[0, 1], true, 2, 600⟩).2.length = 1 ∧
    (Limiter.releaseBody ⟨[0, 1], true, 2, 600⟩).1.items = [1] ∧
    (⟨[0, 1], true, 2, 600⟩ : Limiter).items.length = 2 ∧
    (⟨[0, 1], true, 2, 600⟩ : Limiter).remaining = 2 ∧
    (1 : Nat) ≠ min 2 2 := by
  rw [releaseBody_on_two_two]
  refine ⟨rfl, rfl, rfl, rfl, by decide⟩

/-- Claim C3 evaluated on the code: `release()` with `enabled = true`
never returns, whatever the token rate and whatever recursion budget it
is given — the `setTimeout(this.release(), this.refillRate)` line calls
`release` eagerly instead of passing a deferred reference, so the
constructor-triggered `release()` self-recurses unboundedly and no future
tick is ever scheduled. -/
theorem claim_C3_release_self_recurses (fuel : Nat) (tokenRate : Int) :
    mkLimiter true tokenRate fuel = none ∧
    Limiter.releaseFuel (mkLimiterState true tokenRate) fuel = none := by
  have h : Limiter.releaseFuel (mkLimiterState true tokenRate) fuel = none :=
    Limiter.releaseFuel_none_of_enabled fuel (mkLimiterState true tokenRate) rfl
  exact ⟨h, h⟩

/-- Claim C4 evaluated at the failing input `tokenRate = 10`: the
constructor computes `refillRate = 6000 / 10 = 600` ms and
`setRateLimiting` recomputes `6000 / 10 = 600` ms, not
`60000 / 10 = 6000` ms as the claim states. -/
theorem claim_C4_refill_interval :
    (mkLimiterState true 10).refillRate = 600 ∧
    (setRateLimiting ⟨[], false, 5, 1200⟩ false 10 1).map
      (fun p => p.1.refillRate) = some 600 ∧
    (600 : ℚ) ≠ 60000 / 10 := by
  refine ⟨?_, ?_, by norm_num⟩
  · simp [mkLimiterState]
    norm_num
  · simp [setRateLimiting, Limiter.releaseFuel]
    norm_num

/-- Claim C5 evaluated at the failing input: constructing `PubgApi` with
`options.deferRequests === false` still yields an enabled limiter,
because `options.deferRequests || true` evaluates to `true` whenever
`deferRequests` is `false`; the omitted-option default (`true`) behaves
as the claim says. -/
theorem claim_C5_defer_requests_false_ignored :
    (pubgApiLimiter (some ⟨some false, some 10⟩)).enabled = true ∧
    (pubgApiLimiter (some ⟨some false, some 10⟩)).enabled ≠ false ∧
    (pubgApiLimiter none).enabled = true := by
  refine ⟨rfl, by decide, rfl⟩

/-- Claim C6 counterexample: a limiter with `M = 2` queued callers
(`[3, 4]`) is disabled via `setRateLimiting(false, 10)`; the call returns
with the queue still holding both callers and nobody resolved, because
`release()` returns immediately once `enabled` is false — the queue is
never drained. -/
theorem claim_C6_counterexample :
    setRateLimiting ⟨[3, 4], true, 0, 600⟩ false 10 5 =
      some ((⟨[3, 4], false, 0, 600⟩ : Limiter), []) ∧
    (⟨[3, 4], false, 0, 600⟩ : Limiter).items ≠ [] := by
  constructor
  · simp [setRateLimiting, Limiter.releaseFuel]
    norm_num
  · decide

/-- Claim C6 as amended: disabling the limiter via
`setRateLimiting(false, tokenRate)` resolves none of the queued callers
and leaves the wait queue exactly as it was (only `enabled` and
`refillRate` change) — queued callers stay queued until the limiter is
re-enabled. -/
theorem claim_C6_amended (l : Limiter) (tokenRate : Int) (fuel : Nat) :
    setRateLimiting l false tokenRate (fuel + 1) =
      some ({ l with enabled := false, refillRate := 6000 / (tokenRate : ℚ) }, []) := by
  simp [setRateLimiting, Limiter.releaseFuel]

/-- Claim C7 evaluated on the code: `setRateLimiting` with
`enabled = true` (the reconfiguration the claim describes) never returns,
for every starting limiter state, token rate and recursion budget — the
restarted `release()` self-recurses unboundedly, so there is no
"active refill loop" at all, let alone exactly one. -/
theorem claim_C7_set_rate_limiting_diverges (l : Limiter) (tokenRate : Int)
    (fuel : Nat) :
    setRateLimiting l true tokenRate fuel = none :=
  Limiter.releaseFuel_none_of_enabled fuel
    { l with enabled := true, refillRate := 6000 / (tokenRate : ℚ) } rfl
